import Mathlib

/-!
# Verification of the slackle dispatch subsystem

A shallow embedding of the callback dispatch and lifecycle-hook subsystem of
the `slackle` framework, translated from:

  * `src/slackle/core/slack/handler.py`  (payload dispatch pipeline)
  * `src/slackle/core/slack/callback.py` (callback registry)
  * `src/slackle/core/dispatcher.py`     (hook dispatcher)
  * `src/slackle/core/plugin.py`         (plugin base class)
  * `src/slackle/core/app.py`            (plugin registration)
  * `src/slackle/types/event.py`         (payload schema)

Python exceptions are modelled with an explicit `Except PyErr` result;
attribute access on `None`, subscription of `None`, and indexing an empty
list raise the corresponding error, mirroring CPython semantics.  Hook
emissions performed by the pipeline are recorded as trace events (the
plugins' own side effects are modelled separately for the hook dispatcher).
-/

/-- Exceptions that the modelled Python code can raise.  `userError n`
stands for an arbitrary exception object raised by user-supplied handler or
hook code, tagged by an identifier so that re-raising "the same exception"
is expressible. -/
inductive PyErr where
  | attributeError (msg : String)
  | valueError (msg : String)
  | typeError (msg : String)
  | indexError
  | userError (n : Nat)
deriving DecidableEq, Repr

instance {ε α : Type} [DecidableEq ε] [DecidableEq α] : DecidableEq (Except ε α) :=
  fun a b =>
    match a, b with
    | .ok x, .ok y =>
      if h : x = y then .isTrue (by rw [h]) else .isFalse (fun hh => h (Except.ok.inj hh))
    | .error x, .error y =>
      if h : x = y then .isTrue (by rw [h]) else .isFalse (fun hh => h (Except.error.inj hh))
    | .ok _, .error _ => .isFalse (fun hh => Except.noConfusion hh)
    | .error _, .ok _ => .isFalse (fun hh => Except.noConfusion hh)

/-- Python truthiness of an `Optional[str]` value: `None` and the empty
string are falsy, every other string is truthy. -/
def truthyOptStr : Option String → Bool
  | none => false
  | some s => !(s == "")

/-- Python f-string rendering of an `Optional[str]` value: `None` prints as
the four-character string `None`. -/
def pyStr : Option String → String
  | none => "None"
  | some s => s

/-- `slackle/types/event.py`, `SlackEvent`: the parsed `event` object of a
Slack payload.  Fields not read by the dispatch subsystem are kept to match
the schema. -/
structure SlackEvent where
  type : String
  event_ts : String
  user : Option String := none
  channel : Option String := none
  team : Option String := none
  ts : Option String := none
  bot_id : Option String := none
  app_id : Option String := none
  team_id : Option String := none
deriving DecidableEq, Repr

/-- An element of `SlackPayload.actions`.  In the source the schema is
`List[Dict[str, Any]]`, i.e. each action is a plain dict of string keys;
attribute access (`.action_id`) on such a dict raises `AttributeError`. -/
structure ActionDict where
  entries : List (String × String)
deriving DecidableEq, Repr

/-- `slackle/types/event.py`, `SlackPayload`: the parsed body of a Slack
webhook POST. -/
structure SlackPayload where
  token : String
  team_id : Option String := none
  api_app_id : Option String := none
  event : Option SlackEvent := none
  command : Option String := none
  actions : Option (List ActionDict) := none
  type : String
  event_id : Option String := none
  event_time : Option Int := none
  is_ext_shared_channel : Option Bool := none
  event_context : Option String := none
  challenge : Option String := none
deriving DecidableEq, Repr

/-- Modelled from the spec: `slackle/types/context.py` is not part of the
provided sources.  Spec §3 "Dispatch Context": a per-request ephemeral
object exposing a single mutable flag "skip requested" plus an optional
reason; created fresh per dispatch. -/
structure SlackleContext where
  skipped : Bool := false
  reason : Option String := none
deriving DecidableEq, Repr

/-- `context.skip(reason)`: request that the dispatch be skipped. -/
def SlackleContext.skip (c : SlackleContext) (reason : Option String := none) :
    SlackleContext :=
  { c with skipped := true, reason := reason }

/-- `context.is_skipped`. -/
def SlackleContext.is_skipped (c : SlackleContext) : Bool := c.skipped

/-- Modelled from the spec: `slackle/config.py` is not part of the provided
sources.  Spec §4.2 (5): flags for ignoring bot-originated events and
retried deliveries, and the app's own bot user id. -/
structure SlackleConfig where
  ignore_bot_events : Bool := false
  ignore_retry_events : Bool := false
  app_user_id : Option String := none
deriving DecidableEq, Repr

/-- The only part of the FastAPI `Request` the dispatch pipeline reads:
`request.headers.get("X-Slack-Retry-Num")`. -/
structure Request where
  retry_num_header : Option String := none
deriving DecidableEq, Repr

/-- Values placed into the candidate keyword-argument dictionary
`available_params` in `_handle`.  `vApp`, `vSlack`, `vRequest`, `vResponse`
and `vContext` stand for the references to the app, Slack client, HTTP
request/response and the per-dispatch context object. -/
inductive PyValue where
  | vApp
  | vSlack
  | vRequest
  | vResponse
  | vContext
  | vPayload (p : SlackPayload)
  | vEvent (e : SlackEvent)
  | vStr (s : String)
  | vOptStr (s : Option String)
  | vAction (a : ActionDict)
deriving DecidableEq, Repr

/-- A registered callback handler: its declared parameter names (the keys of
`inspect.signature(handler).parameters`) and its behaviour when invoked with
the selected keyword arguments and the per-dispatch context (the one mutable
object it can affect that the pipeline later inspects). -/
structure Handler where
  params : List String
  run : List (String × PyValue) → SlackleContext → Except PyErr SlackleContext

/-- `slackle/core/slack/callback.py`, `SlackCallbackRegistry`: four string
dictionaries, modelled as update functions (Python `dict` get/set
semantics). -/
structure SlackCallbackRegistry where
  callbacks : String → Option Handler := fun _ => none
  events : String → Option Handler := fun _ => none
  commands : String → Option Handler := fun _ => none
  actions : String → Option Handler := fun _ => none

/-- Python `d[k] = v` on a string-keyed dict, viewed as lookup update. -/
def dictSet (d : String → Option Handler) (k : String) (v : Handler) :
    String → Option Handler :=
  fun k' => if k' = k then some v else d k'

/-- `SlackCallbackRegistry.get`: `self._callbacks.get(callback)`. -/
def SlackCallbackRegistry.get (r : SlackCallbackRegistry) (callback : String) :
    Option Handler :=
  r.callbacks callback

/-- The `event(event_type)` decorator body: stores the handler under
`"events:{event_type}"` in `_callbacks` and under `event_type` in
`_events`. -/
def SlackCallbackRegistry.event (r : SlackCallbackRegistry) (event_type : String)
    (func : Handler) : SlackCallbackRegistry :=
  { r with callbacks := dictSet r.callbacks ("events:" ++ event_type) func,
           events := dictSet r.events event_type func }

/-- The `command(command_name)` decorator body: stores the handler under
`"command:{command_name}"` in `_callbacks` and under `command_name` in
`_commands`. -/
def SlackCallbackRegistry.command (r : SlackCallbackRegistry) (command_name : String)
    (func : Handler) : SlackCallbackRegistry :=
  { r with callbacks := dictSet r.callbacks ("command:" ++ command_name) func,
           commands := dictSet r.commands command_name func }

/-- The `action(action_id)` decorator body: stores the handler under
`"interactivity:{action_id}"` in `_callbacks` and under `action_id` in
`_actions`. -/
def SlackCallbackRegistry.action (r : SlackCallbackRegistry) (action_id : String)
    (func : Handler) : SlackCallbackRegistry :=
  { r with callbacks := dictSet r.callbacks ("interactivity:" ++ action_id) func,
           actions := dictSet r.actions action_id func }

/-- The three registration categories exposed by the registry decorators. -/
inductive Category where
  | events
  | command
  | interactivity
deriving DecidableEq, Repr

/-- The string a category contributes to the composite callback key. -/
def Category.str : Category → String
  | .events => "events"
  | .command => "command"
  | .interactivity => "interactivity"

/-- Registration through the decorator matching a category:
`event` for `events`, `command` for `command`, `action` for
`interactivity`. -/
def registerCat (c : Category) (name : String) (func : Handler)
    (r : SlackCallbackRegistry) : SlackCallbackRegistry :=
  match c with
  | .events => r.event name func
  | .command => r.command name func
  | .interactivity => r.action name func

/-- The composite key under which a category/name registration is stored. -/
def compositeKey (c : Category) (name : String) : String :=
  c.str ++ ":" ++ name

/-- Events the dispatch pipeline produces, in order: hook emissions through
`app.hooks.emit` and the invocation of the looked-up handler with its
keyword arguments. -/
inductive Trace where
  | hook (name : String)
  | invoke (kwargs : List (String × PyValue))
deriving DecidableEq, Repr

/-- `_pre_handle` (handler.py lines 25-64).  Reads `payload.event.bot_id`
unconditionally, so a payload with `event = None` raises `AttributeError`
before anything else.  Returns the updated context and the hook emissions
made. -/
def pre_handle (cfg : SlackleConfig) (handle_type : String) (req : Request)
    (payload : SlackPayload) (context : SlackleContext) :
    Except PyErr (SlackleContext × List Trace) :=
  match payload.event with
  | none => .error (.attributeError "NoneType object has no attribute bot_id")
  | some ev =>
    if truthyOptStr ev.bot_id && cfg.ignore_bot_events then
      .ok (context.skip (some "Ignoring bot events"), [])
    else if truthyOptStr req.retry_num_header && cfg.ignore_retry_events then
      .ok (context.skip (some "Ignoring retry events"), [])
    else if handle_type == "events" && ev.user == cfg.app_user_id then
      .ok (context.skip, [])
    else
      .ok (context, [.hook "slack.pre_handle"])

/-- The `available_params` dictionary built in `_handle` (lines 109-125),
in insertion order.  For `handle_type == "events"` the entries
`event_type`, `user_id`, `channel_id` read attributes of `payload.event`
and raise `AttributeError` when it is `None`; for `"action"` the entry
reads `payload.actions[0]`. -/
def build_available_params (handle_type : String) (payload : SlackPayload) :
    Except PyErr (List (String × PyValue)) :=
  let base : List (String × PyValue) :=
    [("app", .vApp), ("payload", .vPayload payload), ("slack", .vSlack),
     ("request", .vRequest), ("response", .vResponse), ("context", .vContext)]
  if handle_type == "events" then
    match payload.event with
    | none => .error (.attributeError "NoneType object has no attribute type")
    | some ev =>
      .ok (base ++ [("event", .vEvent ev), ("event_type", .vStr ev.type),
                    ("user_id", .vOptStr ev.user),
                    ("channel_id", .vOptStr ev.channel)])
  else if handle_type == "command" then
    .ok (base ++ [("command", .vOptStr payload.command)])
  else if handle_type == "action" then
    match payload.actions with
    | none => .error (.typeError "NoneType object is not subscriptable")
    | some [] => .error .indexError
    | some (a :: _) => .ok (base ++ [("action", .vAction a)])
  else
    .ok base

/-- The kwargs dict comprehension in `_handle` (line 126):
`{k: v for k, v in available_params.items() if k in params}`. -/
def select_kwargs (params : List String) (available : List (String × PyValue)) :
    List (String × PyValue) :=
  available.filter (fun kv => params.contains kv.1)

/-- Result of running the background `_handle` task: the ordered trace of
hook emissions and handler invocation, and whether it returned normally or
propagated an exception. -/
structure HandleResult where
  trace : List Trace
  outcome : Except PyErr Unit
deriving Repr

instance : DecidableEq HandleResult :=
  fun a b =>
    if h1 : a.trace = b.trace then
      if h2 : a.outcome = b.outcome then
        .isTrue (by cases a; cases b; simp_all)
      else .isFalse (fun hh => h2 (by rw [hh]))
    else .isFalse (fun hh => h1 (by rw [hh]))

/-- `_handle` (handler.py lines 91-141).  `handle_name` is the value
produced by `_extract_handle_name`, which for the `command` route is
`payload.command` and may be Python `None`; the lookup key is the f-string
`f"{handle_type}:{handle_name}"`, so `None` renders as `"None"`. -/
def handle (cfg : SlackleConfig) (reg : SlackCallbackRegistry)
    (handle_type : String) (handle_name : Option String) (req : Request)
    (payload : SlackPayload) : HandleResult :=
  match reg.get (handle_type ++ ":" ++ pyStr handle_name) with
  | none => ⟨[.hook "slack.unhandled"], .ok ()⟩
  | some h =>
    match build_available_params handle_type payload with
    | .error e => ⟨[], .error e⟩
    | .ok available =>
      let kwargs := select_kwargs h.params available
      match pre_handle cfg handle_type req payload {} with
      | .error e => ⟨[], .error e⟩
      | .ok (context, preTrace) =>
        if context.is_skipped then ⟨preTrace, .ok ()⟩
        else
          match h.run kwargs context with
          | .error e => ⟨preTrace ++ [.invoke kwargs, .hook "slack.error"], .error e⟩
          | .ok context2 =>
            if context2.is_skipped then ⟨preTrace ++ [.invoke kwargs], .ok ()⟩
            else ⟨preTrace ++ [.invoke kwargs, .hook "slack.post_handle"], .ok ()⟩

/-- `_extract_handle_name` (handler.py lines 188-197).  The `events` arm
reads `payload.event.type`; the `command` arm returns `payload.command`
(an `Optional[str]`); the `action` arm reads `payload.actions[0].action_id`,
and attribute access on a dict raises `AttributeError`; any other
`handle_type` — including the `"interactivity"` the route registration
passes — raises `ValueError`. -/
def extract_handle_name (handle_type : String) (payload : SlackPayload) :
    Except PyErr (Option String) :=
  if handle_type == "events" then
    match payload.event with
    | none => .error (.attributeError "NoneType object has no attribute type")
    | some ev => .ok (some ev.type)
  else if handle_type == "command" then
    .ok payload.command
  else if handle_type == "action" then
    match payload.actions with
    | none => .error (.typeError "NoneType object is not subscriptable")
    | some [] => .error .indexError
    | some (_ :: _) => .error (.attributeError "dict object has no attribute action_id")
  else
    .error (.valueError "Unsupported handle_type")

/-- The task handed to `background_tasks.add_task`: `_handle` applied to the
route's `handle_type` and the extracted handle name. -/
structure ScheduledTask where
  handle_type : String
  handle_name : Option String
deriving DecidableEq, Repr

/-- The JSON acknowledgement `JSONResponse(content={"ok": True},
status_code=200)`. -/
structure AckResponse where
  ok : Bool
  status_code : Nat
deriving DecidableEq, Repr

/-- The synchronous part of `payload_handler` (handler.py lines 148-165):
`_extract_handle_name` runs eagerly while building the `add_task` argument
list, so an exception there propagates before the acknowledgement is
returned; otherwise the background task is scheduled and
`200 {"ok": true}` is returned. -/
def payload_handler_sync (handle_type : String) (payload : SlackPayload) :
    Except PyErr (ScheduledTask × AckResponse) :=
  match extract_handle_name handle_type payload with
  | .error e => .error e
  | .ok name => .ok (⟨handle_type, name⟩, ⟨true, 200⟩)

/-- `_register_routes` (handler.py lines 168-186): path and `handle_type`
of the three POST routes.  (The second `_create_handler` argument is unused
by `payload_handler`, which derives the name from the payload instead.) -/
def routes : List (String × String) :=
  [("/events", "events"), ("/command", "command"),
   ("/interactivity", "interactivity")]

/-- A plugin method tagged by `@on_slackle_event(event)` and collected into
`_event_hooks` at construction.  `isAsync` records whether
`asyncio.iscoroutinefunction` is true of it; `behavior` is what executing
the hook body does (normal return or an exception, tagged by `id` so that
distinct hooks are distinguishable in a call trace). -/
structure PluginHook where
  event : String
  isAsync : Bool
  id : Nat
  behavior : Except PyErr Unit
deriving DecidableEq, Repr

/-- `slackle/core/plugin.py`, `SlacklePlugin`: after construction the plugin
owns its collected hook list (`_event_hooks`, flattened; the per-event lists
are recovered by filtering). -/
structure PluginState where
  hooks : List PluginHook
deriving DecidableEq, Repr

/-- `self._event_hooks.get(event, [])`: the hooks registered for an event,
in their collected order. -/
def hooksFor (p : PluginState) (event : String) : List PluginHook :=
  p.hooks.filter (fun h => h.event == event)

/-- The loop body of `SlacklePlugin.dispatch`: if the hook is a coroutine
function it is awaited, otherwise it is called directly — in both branches
the hook body runs to completion before the loop continues. -/
def runHook (h : PluginHook) : Except PyErr Unit :=
  if h.isAsync then h.behavior else h.behavior

/-- Sequential execution of a hook list: each hook runs (and is awaited)
before the next; the first exception aborts the remainder and propagates.
Returns the ids of the hooks that were actually called, in order. -/
def runHooks : List PluginHook → List Nat × Except PyErr Unit
  | [] => ([], .ok ())
  | h :: rest =>
    match runHook h with
    | .error e => ([h.id], .error e)
    | .ok () =>
      let (t, r) := runHooks rest
      (h.id :: t, r)

/-- `SlacklePlugin.dispatch` (plugin.py lines 93-106): run the plugin's
hooks for the event, sequentially. -/
def PluginState.dispatch (p : PluginState) (event : String) :
    List Nat × Except PyErr Unit :=
  runHooks (hooksFor p event)

/-- `slackle/core/dispatcher.py`, `HookDispatcher`: holds the plugin list in
registration order. -/
structure HookDispatcher where
  plugins : List PluginState
deriving DecidableEq, Repr

/-- The `for plugin in self._plugins` loop of `HookDispatcher.emit`: each
plugin's dispatch is awaited before the next plugin's begins; an exception
from one plugin's hook propagates and the remaining plugins are not
dispatched. -/
def emitList (plugins : List PluginState) (event : String) :
    List Nat × Except PyErr Unit :=
  match plugins with
  | [] => ([], .ok ())
  | p :: rest =>
    match p.dispatch event with
    | (t, .error e) => (t, .error e)
    | (t, .ok ()) =>
      let (t2, r2) := emitList rest event
      (t ++ t2, r2)

/-- `HookDispatcher.emit` (dispatcher.py lines 45-55). -/
def HookDispatcher.emit (d : HookDispatcher) (event : String) :
    List Nat × Except PyErr Unit :=
  emitList d.plugins event

/-- Identity of a Python object relevant to `add_plugin`: the class object
passed as the argument, or a constructed plugin instance.  Python's default
`__eq__` is object identity, and a class object and an instance are always
distinct objects. -/
inductive PyObjId where
  | classObj (n : Nat)
  | instObj (n : Nat)
deriving DecidableEq, Repr

/-- Python `==` between two objects with default `__eq__`: identity. -/
def pyEq (a b : PyObjId) : Bool := a == b

/-- Python `x in lst`: true when some element compares equal to `x`. -/
def pyListContains (x : PyObjId) (l : List PyObjId) : Bool := l.any (pyEq x)

/-- The class object handed to `add_plugin`: its identity and whether it
satisfies `issubclass(plugin, SlacklePlugin)`.  Its `setup` is the base
class's no-op (plugins overriding `setup` run arbitrary code there, outside
this model). -/
structure PluginClassVal where
  clsId : Nat
  subclassOfBase : Bool
deriving DecidableEq, Repr

/-- An entry of `Slackle._plugins`: a constructed plugin instance (the
result of `plugin()`), carrying its own object identity. -/
structure PluginInstanceVal where
  clsId : Nat
  objId : PyObjId
deriving DecidableEq, Repr

/-- The state of the `Slackle` app that `add_plugin` and the startup hook
read and write: the `__booted` flag and the `_plugins` instance list.
`nextInstanceId` supplies fresh object identities for constructed
instances. -/
structure AppState where
  booted : Bool := false
  plugins : List PluginInstanceVal := []
  nextInstanceId : Nat := 0
deriving DecidableEq, Repr

/-- `Slackle.add_plugin` (app.py lines 222-242), for a plugin class whose
`setup` is the base no-op.  Inside the `_plugin_setup()` context manager it
checks `issubclass(plugin, SlacklePlugin)` (raising `TypeError`), then
`plugin in self._plugins` (raising `ValueError`) — a membership test that
compares the class object against the stored instances — then constructs
the instance, calls `setup`, and appends.  There is no check of the
`__booted` flag anywhere in `add_plugin`. -/
def add_plugin (st : AppState) (plugin : PluginClassVal) : Except PyErr AppState :=
  if !plugin.subclassOfBase then
    .error (.typeError "Plugin must be a subclass of SlacklePlugin")
  else if pyListContains (.classObj plugin.clsId) (st.plugins.map (·.objId)) then
    .error (.valueError "Plugin is already registered")
  else
    .ok { st with
          plugins := st.plugins ++ [⟨plugin.clsId, .instObj st.nextInstanceId⟩],
          nextInstanceId := st.nextInstanceId + 1 }

/-- `Slackle._on_startup` (app.py lines 153-159): sets `__booted`. -/
def on_startup (st : AppState) : AppState :=
  { st with booted := true }

/-!
## Helper lemmas
-/

/-- A successful `_pre_handle` run emits either nothing (one of the three
skip branches) or exactly the `slack.pre_handle` hook. -/
theorem pre_handle_trace_shape {cfg : SlackleConfig} {ht : String} {req : Request}
    {p : SlackPayload} {c0 c : SlackleContext} {t : List Trace}
    (h : pre_handle cfg ht req p c0 = .ok (c, t)) :
    t = [] ∨ t = [.hook "slack.pre_handle"] := by
  unfold pre_handle at h
  split at h
  · exact absurd h (by simp)
  · split at h
    · simp_all
    · split at h
      · simp_all
      · split at h
        · simp_all
        · simp_all

/-- A successful `_pre_handle` run starting from the fresh per-dispatch
context that does not request a skip took the final branch: it emitted the
`slack.pre_handle` hook. -/
theorem pre_handle_not_skipped {cfg : SlackleConfig} {ht : String} {req : Request}
    {p : SlackPayload} {c : SlackleContext} {t : List Trace}
    (h : pre_handle cfg ht req p {} = .ok (c, t)) (hs : c.skipped = false) :
    t = [.hook "slack.pre_handle"] := by
  unfold pre_handle at h
  split at h
  · exact absurd h (by simp)
  · split at h
    · have hc : SlackleContext.skip {} (some "Ignoring bot events") = c ∧ t = [] := by
        simpa using h
      rw [← hc.1] at hs
      simp [SlackleContext.skip] at hs
    · split at h
      · have hc : SlackleContext.skip {} (some "Ignoring retry events") = c ∧ t = [] := by
          simpa using h
        rw [← hc.1] at hs
        simp [SlackleContext.skip] at hs
      · split at h
        · have hc : SlackleContext.skip {} = c ∧ t = [] := by
            simpa using h
          rw [← hc.1] at hs
          simp [SlackleContext.skip] at hs
        · simp_all

/-- Any handler invocation recorded by `_handle` carries exactly the kwargs
selected from the available-parameter vocabulary by the handler's declared
parameter names. -/
theorem handle_invoke_kwargs
    {cfg : SlackleConfig} {reg : SlackCallbackRegistry} {ht : String}
    {name : Option String} {req : Request} {payload : SlackPayload} {h : Handler}
    {A : List (String × PyValue)} {kw : List (String × PyValue)}
    (hreg : reg.get (ht ++ ":" ++ pyStr name) = some h)
    (hA : build_available_params ht payload = .ok A)
    (hm : Trace.invoke kw ∈ (handle cfg reg ht name req payload).trace) :
    kw = select_kwargs h.params A := by
  unfold handle at hm
  rw [hreg, hA] at hm
  cases hp : pre_handle cfg ht req payload {} with
  | error e => rw [hp] at hm; simp at hm
  | ok ct =>
    obtain ⟨c, t⟩ := ct
    rw [hp] at hm
    have hnt : ∀ kw', Trace.invoke kw' ∉ t := by
      intro kw'
      rcases pre_handle_trace_shape hp with rfl | rfl <;> simp
    by_cases hsk : c.is_skipped
    · simp only [hsk, if_true] at hm
      exact absurd hm (hnt kw)
    · simp only [hsk, if_false] at hm
      cases hr : h.run (select_kwargs h.params A) c with
      | error e =>
        rw [hr] at hm
        simp at hm
        rcases hm with hm | hm
        · exact absurd hm (hnt kw)
        · exact hm
      | ok c2 =>
        rw [hr] at hm
        by_cases hsk2 : c2.is_skipped
        · simp [hsk2] at hm
          rcases hm with hm | hm
          · exact absurd hm (hnt kw)
          · exact hm
        · simp [hsk2] at hm
          rcases hm with hm | hm
          · exact absurd hm (hnt kw)
          · exact hm

/-- The dispatch loop runs a hook regardless of whether it is a coroutine
function; both branches execute the body. -/
theorem runHook_eq (h : PluginHook) : runHook h = h.behavior := by
  unfold runHook
  exact ite_self _

/-- When every hook in the list returns normally, all are called in order. -/
theorem runHooks_all_ok (hooks : List PluginHook)
    (h : ∀ hk ∈ hooks, hk.behavior = .ok ()) :
    runHooks hooks = (hooks.map (fun hk => hk.id), .ok ()) := by
  induction hooks with
  | nil => rfl
  | cons hd tl ih =>
    have hhd : runHook hd = .ok () := by rw [runHook_eq]; exact h hd (by simp)
    simp [runHooks, hhd, ih (fun hk hm => h hk (by simp [hm]))]

/-- Appending after a normally-completing prefix runs the prefix and then
the suffix. -/
theorem runHooks_append_of_ok (l1 l2 : List PluginHook)
    (h : (runHooks l1).2 = .ok ()) :
    runHooks (l1 ++ l2) = ((runHooks l1).1 ++ (runHooks l2).1, (runHooks l2).2) := by
  induction l1 with
  | nil => simp [runHooks]
  | cons hd tl ih =>
    cases hr : runHook hd with
    | error e => rw [runHooks, hr] at h; simp at h
    | ok u =>
      obtain ⟨⟩ := u
      have h' : (runHooks tl).2 = .ok () := by
        rw [runHooks, hr] at h
        simpa using h
      simp [runHooks, hr, ih h']

/-- A prefix that raises aborts the whole list: the suffix never runs. -/
theorem runHooks_append_of_error (l1 l2 : List PluginHook) (e : PyErr)
    (h : (runHooks l1).2 = .error e) :
    runHooks (l1 ++ l2) = runHooks l1 := by
  induction l1 with
  | nil => rw [runHooks] at h; simp at h
  | cons hd tl ih =>
    cases hr : runHook hd with
    | error e' =>
      simp [runHooks, hr]
    | ok u =>
      obtain ⟨⟩ := u
      have h' : (runHooks tl).2 = .error e := by
        rw [runHooks, hr] at h
        simpa using h
      simp [runHooks, hr, ih h']

/-- Emitting over the plugin list is running the concatenation, in plugin
order, of each plugin's hooks for the event. -/
theorem emitList_eq_runHooks (ps : List PluginState) (event : String) :
    emitList ps event = runHooks ((ps.map (fun p => hooksFor p event)).flatten) := by
  induction ps with
  | nil => rfl
  | cons p rest ih =>
    cases hd : p.dispatch event with
    | mk t r =>
      have hd' : runHooks (hooksFor p event) = (t, r) := hd
      cases r with
      | error e =>
        rw [List.map_cons, List.flatten_cons]
        rw [runHooks_append_of_error _ _ e (by rw [hd']), hd']
        simp [emitList, hd]
      | ok u =>
        obtain ⟨⟩ := u
        rw [List.map_cons, List.flatten_cons]
        rw [runHooks_append_of_ok _ _ (by rw [hd']), hd', ← ih]
        simp [emitList, hd]

/-!
## Claim theorems
-/

/-- A command payload for `/x`, with no `event`. -/
def cmdPayloadX : SlackPayload :=
  { token := "t", type := "command", command := some "/x" }

/-- C2: the keyword arguments passed to a dispatched handler are exactly the
entries of the per-category vocabulary whose names the handler declares —
independent of declaration order — and declared names outside the vocabulary
are never supplied (the selection itself is a total filter, so they cause no
error). -/
theorem dispatch_kwargs_exactly_declared_vocabulary
    (ht : String) (payload : SlackPayload) (A : List (String × PyValue))
    (h : Handler)
    (hA : build_available_params ht payload = .ok A) :
    (∀ kv, kv ∈ select_kwargs h.params A ↔ kv ∈ A ∧ kv.1 ∈ h.params) ∧
    (∀ params2 : List String, (∀ s, s ∈ params2 ↔ s ∈ h.params) →
        select_kwargs params2 A = select_kwargs h.params A) ∧
    (∀ k, k ∈ (select_kwargs h.params A).map Prod.fst → k ∈ A.map Prod.fst) ∧
    (∀ (cfg : SlackleConfig) (reg : SlackCallbackRegistry) (name : Option String)
        (req : Request) (kw : List (String × PyValue)),
        reg.get (ht ++ ":" ++ pyStr name) = some h →
        Trace.invoke kw ∈ (handle cfg reg ht name req payload).trace →
        kw = select_kwargs h.params A) := by
  refine ⟨?_, ?_, ?_, ?_⟩
  · intro kv
    simp [select_kwargs, List.mem_filter]
  · intro params2 hpm
    unfold select_kwargs
    apply List.filter_congr
    intro kv _
    have := hpm kv.1
    by_cases hm : kv.1 ∈ h.params <;> simp_all
  · intro k hk
    simp only [select_kwargs, List.mem_map] at *
    obtain ⟨kv, hkv, rfl⟩ := hk
    exact ⟨kv, (List.mem_filter.mp hkv).1, rfl⟩
  · intro cfg reg name req kw hreg hm
    exact handle_invoke_kwargs hreg hA hm

/-- The available-parameter vocabulary of a `/x` command dispatch. -/
def cmdAvailableX : List (String × PyValue) :=
  [("app", .vApp), ("payload", .vPayload cmdPayloadX), ("slack", .vSlack),
   ("request", .vRequest), ("response", .vResponse), ("context", .vContext),
   ("command", .vOptStr (some "/x"))]

/-- A handler declaring one vocabulary name and one unknown name. -/
def probeHandler : Handler := ⟨["payload", "unknown_thing"], fun _ c => .ok c⟩

/-- Witness for C2: the command vocabulary filtered by `probeHandler`'s
declared names. -/
theorem dispatch_kwargs_exactly_declared_vocabulary_witness :
    build_available_params "command" cmdPayloadX = .ok cmdAvailableX ∧
    (∀ kv, kv ∈ select_kwargs probeHandler.params cmdAvailableX ↔
        kv ∈ cmdAvailableX ∧ kv.1 ∈ probeHandler.params) ∧
    (∀ k, k ∈ (select_kwargs probeHandler.params cmdAvailableX).map Prod.fst →
        k ∈ cmdAvailableX.map Prod.fst) :=
  ⟨rfl,
   (dispatch_kwargs_exactly_declared_vocabulary "command" cmdPayloadX
      cmdAvailableX probeHandler rfl).1,
   (dispatch_kwargs_exactly_declared_vocabulary "command" cmdPayloadX
      cmdAvailableX probeHandler rfl).2.2.1⟩

/-- C1: the claim says every POST to any of the three payload routes whose
body parses into the payload schema is acknowledged with `200 {"ok": true}`
synchronously.  This is false for the `/interactivity` route: its
`handle_type` is `"interactivity"`, which `_extract_handle_name` — run
eagerly before the acknowledgement is returned — rejects with
`ValueError("Unsupported handle_type")` for every payload, so the route
never acknowledges. -/
theorem interactivity_route_never_acknowledges :
    ("/interactivity", "interactivity") ∈ routes ∧
    ∀ payload : SlackPayload,
      payload_handler_sync "interactivity" payload =
        .error (.valueError "Unsupported handle_type") := by
  exact ⟨by simp [routes], fun payload => rfl⟩

/-- C6: the claim says `add_plugin` raises when the same class is already
registered or when the app has completed startup, leaving the plugin list
unchanged.  The code does neither: `plugin in self._plugins` compares the
class object against the stored instances and never fires, and `add_plugin`
contains no check of the startup flag — so on a booted app the same class is
accepted twice, appending two instances. -/
theorem add_plugin_accepts_duplicate_after_startup :
    add_plugin { booted := true, plugins := [], nextInstanceId := 0 } ⟨7, true⟩ =
      .ok { booted := true, plugins := [⟨7, .instObj 0⟩], nextInstanceId := 1 } ∧
    add_plugin { booted := true, plugins := [⟨7, .instObj 0⟩], nextInstanceId := 1 }
        ⟨7, true⟩ =
      .ok { booted := true, plugins := [⟨7, .instObj 0⟩, ⟨7, .instObj 1⟩],
            nextInstanceId := 2 } := by
  exact ⟨rfl, rfl⟩

/-- C3: dispatch to an unregistered key never raises to the webhook caller:
the synchronous route part returns `200 {"ok": true}`, and the background
`_handle` emits the `slack.unhandled` hook exactly once and returns
normally, invoking no handler and emitting no pre-handle or post-handle
hook. -/
theorem unregistered_key_acknowledged_and_unhandled_once
    (cfg : SlackleConfig) (reg : SlackCallbackRegistry) (ht : String)
    (payload : SlackPayload) (name : Option String) (req : Request)
    (hx : extract_handle_name ht payload = .ok name)
    (hr : reg.get (ht ++ ":" ++ pyStr name) = none) :
    payload_handler_sync ht payload = .ok (⟨ht, name⟩, ⟨true, 200⟩) ∧
    handle cfg reg ht name req payload = ⟨[.hook "slack.unhandled"], .ok ()⟩ ∧
    (handle cfg reg ht name req payload).trace.count (.hook "slack.unhandled") = 1 ∧
    (∀ kw, Trace.invoke kw ∉ (handle cfg reg ht name req payload).trace) ∧
    Trace.hook "slack.pre_handle" ∉ (handle cfg reg ht name req payload).trace ∧
    Trace.hook "slack.post_handle" ∉ (handle cfg reg ht name req payload).trace := by
  have hack : payload_handler_sync ht payload = .ok (⟨ht, name⟩, ⟨true, 200⟩) := by
    unfold payload_handler_sync
    rw [hx]
  have hh : handle cfg reg ht name req payload = ⟨[.hook "slack.unhandled"], .ok ()⟩ := by
    unfold handle
    rw [hr]
  refine ⟨hack, hh, ?_, ?_, ?_, ?_⟩ <;> rw [hh] <;> simp

/-- Witness for C3: the empty registry, a command payload for `/x`. -/
theorem unregistered_key_acknowledged_and_unhandled_once_witness :
    payload_handler_sync "command" cmdPayloadX =
      .ok (⟨"command", some "/x"⟩, ⟨true, 200⟩) ∧
    handle {} {} "command" (some "/x") {} cmdPayloadX =
      ⟨[.hook "slack.unhandled"], .ok ()⟩ :=
  ⟨(unregistered_key_acknowledged_and_unhandled_once {} {} "command"
      cmdPayloadX (some "/x") {} rfl rfl).1,
   (unregistered_key_acknowledged_and_unhandled_once {} {} "command"
      cmdPayloadX (some "/x") {} rfl rfl).2.1⟩

/-- C4: an events dispatch whose `event.bot_id` is set (a non-empty bot id),
with `ignore_bot_events` enabled, is skipped by `_pre_handle` before any
hook fires: the registered handler is never invoked and no post-handle hook
is emitted. -/
theorem bot_event_ignored_skips_handler_and_post_handle
    (cfg : SlackleConfig) (reg : SlackCallbackRegistry)
    (req : Request) (payload : SlackPayload) (ev : SlackEvent) (s : String)
    (name : Option String) (h : Handler)
    (hev : payload.event = some ev) (hbot : ev.bot_id = some s) (hs : s ≠ "")
    (hcfg : cfg.ignore_bot_events = true)
    (hreg : reg.get ("events" ++ ":" ++ pyStr name) = some h) :
    handle cfg reg "events" name req payload = ⟨[], .ok ()⟩ ∧
    (∀ kw, Trace.invoke kw ∉ (handle cfg reg "events" name req payload).trace) ∧
    Trace.hook "slack.post_handle" ∉ (handle cfg reg "events" name req payload).trace := by
  have hsb : (s == "") = false := by simpa using hs
  have hpre : pre_handle cfg "events" req payload {} =
      .ok (SlackleContext.skip {} (some "Ignoring bot events"), []) := by
    unfold pre_handle
    rw [hev]
    simp [truthyOptStr, hbot, hsb, hcfg]
  have hav : build_available_params "events" payload =
      .ok [("app", .vApp), ("payload", .vPayload payload), ("slack", .vSlack),
           ("request", .vRequest), ("response", .vResponse), ("context", .vContext),
           ("event", .vEvent ev), ("event_type", .vStr ev.type),
           ("user_id", .vOptStr ev.user), ("channel_id", .vOptStr ev.channel)] := by
    unfold build_available_params
    rw [hev]
    simp
  have hh : handle cfg reg "events" name req payload = ⟨[], .ok ()⟩ := by
    unfold handle
    rw [hreg, hav, hpre]
    simp [SlackleContext.is_skipped, SlackleContext.skip]
  refine ⟨hh, ?_, ?_⟩ <;> rw [hh] <;> simp

/-- A payload whose event carries a bot id, as delivered for a message
posted by a bot. -/
def botPayload : SlackPayload :=
  { token := "t", type := "event_callback",
    event := some { type := "message", event_ts := "1", bot_id := some "B1" } }

/-- A handler that declares only `payload` and returns normally. -/
def noopHandler : Handler := ⟨["payload"], fun _ c => .ok c⟩

/-- A registry with `noopHandler` registered for the `message` event. -/
def botRegistry : SlackCallbackRegistry :=
  SlackCallbackRegistry.event {} "message" noopHandler

/-- Witness for C4: dispatching `botPayload` with bot-event ignoring on. -/
theorem bot_event_ignored_skips_handler_and_post_handle_witness :
    handle { ignore_bot_events := true } botRegistry "events" (some "message") {}
        botPayload = ⟨[], .ok ()⟩ ∧
    Trace.hook "slack.post_handle" ∉
      (handle { ignore_bot_events := true } botRegistry "events" (some "message") {}
        botPayload).trace :=
  ⟨(bot_event_ignored_skips_handler_and_post_handle
      { ignore_bot_events := true } botRegistry {} botPayload
      { type := "message", event_ts := "1", bot_id := some "B1" } "B1"
      (some "message") noopHandler rfl rfl (by decide) rfl rfl).1,
   (bot_event_ignored_skips_handler_and_post_handle
      { ignore_bot_events := true } botRegistry {} botPayload
      { type := "message", event_ts := "1", bot_id := some "B1" } "B1"
      (some "message") noopHandler rfl rfl (by decide) rfl rfl).2.2⟩

/-- C5: when the invoked handler raises, `_handle` emits the `slack.error`
hook exactly once and re-raises the same exception; no post-handle hook is
emitted and nothing is retried. -/
theorem handler_exception_emits_error_hook_then_propagates
    (cfg : SlackleConfig) (reg : SlackCallbackRegistry) (ht : String)
    (name : Option String) (req : Request) (payload : SlackPayload) (h : Handler)
    (A : List (String × PyValue)) (c : SlackleContext) (t : List Trace) (e : PyErr)
    (hreg : reg.get (ht ++ ":" ++ pyStr name) = some h)
    (hA : build_available_params ht payload = .ok A)
    (hpre : pre_handle cfg ht req payload {} = .ok (c, t))
    (hskip : c.skipped = false)
    (hrun : h.run (select_kwargs h.params A) c = .error e) :
    handle cfg reg ht name req payload =
      ⟨[.hook "slack.pre_handle", .invoke (select_kwargs h.params A),
        .hook "slack.error"], .error e⟩ ∧
    (handle cfg reg ht name req payload).trace.count (.hook "slack.error") = 1 ∧
    Trace.hook "slack.post_handle" ∉ (handle cfg reg ht name req payload).trace ∧
    (handle cfg reg ht name req payload).outcome = .error e := by
  have ht' := pre_handle_not_skipped hpre hskip
  subst ht'
  have hh : handle cfg reg ht name req payload =
      ⟨[.hook "slack.pre_handle", .invoke (select_kwargs h.params A),
        .hook "slack.error"], .error e⟩ := by
    unfold handle
    rw [hreg, hA, hpre]
    simp [SlackleContext.is_skipped, hskip, hrun]
  refine ⟨hh, ?_, ?_, ?_⟩ <;> rw [hh] <;> simp

/-- A payload whose event is an ordinary user message (no bot id). -/
def userPayload : SlackPayload :=
  { token := "t", type := "event_callback",
    event := some { type := "message", event_ts := "1", user := some "U1" } }

/-- A handler that declares only `payload` and raises. -/
def raisingHandler : Handler := ⟨["payload"], fun _ _ => .error (.userError 3)⟩

/-- A registry with `raisingHandler` registered for the `message` event. -/
def raisingRegistry : SlackCallbackRegistry :=
  SlackCallbackRegistry.event {} "message" raisingHandler

/-- Witness for C5: dispatching `userPayload` to the raising handler. -/
theorem handler_exception_emits_error_hook_then_propagates_witness :
    handle {} raisingRegistry "events" (some "message") {} userPayload =
      ⟨[.hook "slack.pre_handle",
        .invoke (select_kwargs raisingHandler.params
          [("app", .vApp), ("payload", .vPayload userPayload), ("slack", .vSlack),
           ("request", .vRequest), ("response", .vResponse), ("context", .vContext),
           ("event", .vEvent { type := "message", event_ts := "1", user := some "U1" }),
           ("event_type", .vStr "message"), ("user_id", .vOptStr (some "U1")),
           ("channel_id", .vOptStr none)]),
        .hook "slack.error"], .error (.userError 3)⟩ :=
  (handler_exception_emits_error_hook_then_propagates {} raisingRegistry "events"
    (some "message") {} userPayload raisingHandler
    [("app", .vApp), ("payload", .vPayload userPayload), ("slack", .vSlack),
     ("request", .vRequest), ("response", .vResponse), ("context", .vContext),
     ("event", .vEvent { type := "message", event_ts := "1", user := some "U1" }),
     ("event_type", .vStr "message"), ("user_id", .vOptStr (some "U1")),
     ("channel_id", .vOptStr none)]
    {} [.hook "slack.pre_handle"] (.userError 3) rfl rfl rfl rfl rfl).1

/-- C10: every scheduled dispatch whose payload lacks the `event` field —
which, among payloads that pass the routes' synchronous name extraction, can
only be a command dispatch (`/events` requires the event for extraction and
`/interactivity` never schedules) — raises `AttributeError` in `_pre_handle`
reading `payload.event.bot_id`, so the registered handler is never
invoked. -/
theorem eventless_dispatch_raises_attribute_error
    (cfg : SlackleConfig) (reg : SlackCallbackRegistry) (ht : String)
    (name : Option String) (req : Request) (payload : SlackPayload) (h : Handler)
    (hroute : ht ∈ routes.map Prod.snd)
    (hsched : extract_handle_name ht payload = .ok name)
    (hev : payload.event = none)
    (hreg : reg.get (ht ++ ":" ++ pyStr name) = some h) :
    handle cfg reg ht name req payload =
      ⟨[], .error (.attributeError "NoneType object has no attribute bot_id")⟩ ∧
    (∀ kw, Trace.invoke kw ∉ (handle cfg reg ht name req payload).trace) := by
  have hcmd : ht = "command" := by
    simp [routes] at hroute
    rcases hroute with h1 | h1 | h1
    · subst h1
      unfold extract_handle_name at hsched
      rw [hev] at hsched
      simp at hsched
    · exact h1
    · subst h1
      unfold extract_handle_name at hsched
      simp at hsched
  subst hcmd
  have hav : build_available_params "command" payload =
      .ok [("app", .vApp), ("payload", .vPayload payload), ("slack", .vSlack),
           ("request", .vRequest), ("response", .vResponse), ("context", .vContext),
           ("command", .vOptStr payload.command)] := by
    unfold build_available_params
    simp
  have hpre : pre_handle cfg "command" req payload {} =
      .error (.attributeError "NoneType object has no attribute bot_id") := by
    unfold pre_handle
    rw [hev]
  have hh : handle cfg reg "command" name req payload =
      ⟨[], .error (.attributeError "NoneType object has no attribute bot_id")⟩ := by
    unfold handle
    rw [hreg, hav, hpre]
  refine ⟨hh, ?_⟩
  rw [hh]
  simp

/-- A registry with a handler for the `/x` command. -/
def cmdRegistryX : SlackCallbackRegistry :=
  SlackCallbackRegistry.command {} "/x" noopHandler

/-- Witness for C10: a registered `/x` command dispatch with no `event`. -/
theorem eventless_dispatch_raises_attribute_error_witness :
    handle {} cmdRegistryX "command" (some "/x") {} cmdPayloadX =
      ⟨[], .error (.attributeError "NoneType object has no attribute bot_id")⟩ :=
  (eventless_dispatch_raises_attribute_error {} cmdRegistryX "command"
    (some "/x") {} cmdPayloadX noopHandler (by decide) rfl rfl rfl).1

/-- The composite keys are injective across the three categories: the
category strings are colon-free and pairwise distinct, so
`"{category}:{name}"` determines both parts. -/
theorem compositeKey_inj (c c' : Category) (n n' : String)
    (h : compositeKey c n = compositeKey c' n') : c = c' ∧ n = n' := by
  have hd := congrArg String.data h
  cases c <;> cases c' <;>
    simp only [compositeKey, Category.str, String.data_append] at hd <;>
    first
    | (refine ⟨rfl, ?_⟩
       apply String.ext
       simpa using hd)
    | (exfalso
       simp at hd)

/-- C8: after registering a handler under a category and name it is
retrievable by exactly the composite key `"{category}:{name}"` and by no
other key (every other key's entry is unchanged, and distinct
category/name pairs yield distinct composite keys); registering a second
handler under the same key silently replaces the first. -/
theorem register_retrievable_exactly_at_composite_key
    (c : Category) (name : String) (f : Handler) (r : SlackCallbackRegistry) :
    (registerCat c name f r).get (compositeKey c name) = some f ∧
    (∀ k, k ≠ compositeKey c name → (registerCat c name f r).get k = r.get k) ∧
    (∀ c' n', compositeKey c' n' = compositeKey c name → c' = c ∧ n' = name) ∧
    (∀ g, (registerCat c name g (registerCat c name f r)).get
        (compositeKey c name) = some g) := by
  refine ⟨?_, ?_, fun c' n' h => compositeKey_inj c' c n' name h, ?_⟩
  · cases c with
    | events =>
      have hk : compositeKey Category.events name = "events:" ++ name := rfl
      rw [hk]
      simp [registerCat, SlackCallbackRegistry.event, SlackCallbackRegistry.get, dictSet]
    | command =>
      have hk : compositeKey Category.command name = "command:" ++ name := rfl
      rw [hk]
      simp [registerCat, SlackCallbackRegistry.command, SlackCallbackRegistry.get, dictSet]
    | interactivity =>
      have hk : compositeKey Category.interactivity name = "interactivity:" ++ name := rfl
      rw [hk]
      simp [registerCat, SlackCallbackRegistry.action, SlackCallbackRegistry.get, dictSet]
  · intro k hne
    cases c with
    | events =>
      have hk : compositeKey Category.events name = "events:" ++ name := rfl
      rw [hk] at hne
      simp [registerCat, SlackCallbackRegistry.event, SlackCallbackRegistry.get, dictSet, hne]
    | command =>
      have hk : compositeKey Category.command name = "command:" ++ name := rfl
      rw [hk] at hne
      simp [registerCat, SlackCallbackRegistry.command, SlackCallbackRegistry.get, dictSet, hne]
    | interactivity =>
      have hk : compositeKey Category.interactivity name = "interactivity:" ++ name := rfl
      rw [hk] at hne
      simp [registerCat, SlackCallbackRegistry.action, SlackCallbackRegistry.get, dictSet, hne]
  · intro g
    cases c with
    | events =>
      have hk : compositeKey Category.events name = "events:" ++ name := rfl
      rw [hk]
      simp [registerCat, SlackCallbackRegistry.event, SlackCallbackRegistry.get, dictSet]
    | command =>
      have hk : compositeKey Category.command name = "command:" ++ name := rfl
      rw [hk]
      simp [registerCat, SlackCallbackRegistry.command, SlackCallbackRegistry.get, dictSet]
    | interactivity =>
      have hk : compositeKey Category.interactivity name = "interactivity:" ++ name := rfl
      rw [hk]
      simp [registerCat, SlackCallbackRegistry.action, SlackCallbackRegistry.get, dictSet]

/-- A second handler for replacement tests. -/
def replacementHandler : Handler := ⟨["app"], fun _ c => .ok c⟩

/-- Witness for C8: registering `/hello` under `command`, checking
retrieval, an unrelated key, and replacement. -/
theorem register_retrievable_exactly_at_composite_key_witness :
    (registerCat .command "/hello" noopHandler {}).get
      (compositeKey .command "/hello") = some noopHandler ∧
    (registerCat .command "/hello" noopHandler {}).get
      (compositeKey .events "other") = none ∧
    (registerCat .command "/hello" replacementHandler
        (registerCat .command "/hello" noopHandler {})).get
      (compositeKey .command "/hello") = some replacementHandler :=
  ⟨(register_retrievable_exactly_at_composite_key .command "/hello"
      noopHandler {}).1,
   (register_retrievable_exactly_at_composite_key .command "/hello"
      noopHandler {}).2.1 (compositeKey .events "other") (by decide),
   (register_retrievable_exactly_at_composite_key .command "/hello"
      noopHandler {}).2.2.2 replacementHandler⟩

/-- C7: `emit` calls, for every plugin in registration order, each of that
plugin's hooks tagged with the event name, sequentially, awaiting each
before the next (the trace is the in-order concatenation of per-plugin hook
runs); synchronous and asynchronous hooks are treated alike; a hook's
exception propagates out of `emit` and no later hook of that emission
runs. -/
theorem emit_sequential_in_order_abort_on_exception
    (d : HookDispatcher) (event : String) :
    d.emit event = runHooks ((d.plugins.map (fun p => hooksFor p event)).flatten) ∧
    (∀ hooks : List PluginHook, (∀ hk ∈ hooks, hk.behavior = .ok ()) →
        runHooks hooks = (hooks.map (fun hk => hk.id), .ok ())) ∧
    (∀ (front back : List PluginHook) (hk : PluginHook) (e : PyErr),
        (∀ hk' ∈ front, hk'.behavior = .ok ()) → hk.behavior = .error e →
        runHooks (front ++ hk :: back) =
          (front.map (fun hk' => hk'.id) ++ [hk.id], .error e)) ∧
    (∀ (hk : PluginHook) (b : Bool), runHook { hk with isAsync := b } = runHook hk) := by
  refine ⟨emitList_eq_runHooks d.plugins event, runHooks_all_ok, ?_, ?_⟩
  · intro front back hk e hok he
    have h1 := runHooks_all_ok front hok
    have h2 : runHooks (hk :: back) = ([hk.id], .error e) := by
      simp [runHooks, runHook_eq, he]
    rw [runHooks_append_of_ok front (hk :: back) (by rw [h1])]
    rw [h1, h2]
  · intro hk b
    simp [runHook]

/-- An always-succeeding async startup hook. -/
def hookOk1 : PluginHook := ⟨"startup", true, 1, .ok ()⟩

/-- An always-succeeding sync startup hook. -/
def hookOk2 : PluginHook := ⟨"startup", false, 2, .ok ()⟩

/-- A sync startup hook that raises. -/
def hookBoom : PluginHook := ⟨"startup", false, 4, .error (.userError 9)⟩

/-- Witness for C7: full conjunction at a two-plugin dispatcher and
concrete hook lists. -/
theorem emit_sequential_in_order_abort_on_exception_witness :
    HookDispatcher.emit ⟨[⟨[hookOk1]⟩, ⟨[hookOk2]⟩]⟩ "startup" =
      runHooks (([⟨[hookOk1]⟩, ⟨[hookOk2]⟩] : List PluginState).map
        (fun p => hooksFor p "startup")).flatten ∧
    runHooks [hookOk1, hookOk2] = ([1, 2], .ok ()) ∧
    runHooks ([hookOk1] ++ hookBoom :: [hookOk2]) =
      ([1, 4], .error (.userError 9)) ∧
    runHook { hookOk1 with isAsync := true } = runHook hookOk1 :=
  ⟨(emit_sequential_in_order_abort_on_exception ⟨[⟨[hookOk1]⟩, ⟨[hookOk2]⟩]⟩
      "startup").1,
   (emit_sequential_in_order_abort_on_exception ⟨[⟨[hookOk1]⟩, ⟨[hookOk2]⟩]⟩
      "startup").2.1 [hookOk1, hookOk2] (by decide),
   (emit_sequential_in_order_abort_on_exception ⟨[⟨[hookOk1]⟩, ⟨[hookOk2]⟩]⟩
      "startup").2.2.1 [hookOk1] [hookOk2] hookBoom (.userError 9)
      (by decide) (by decide),
   (emit_sequential_in_order_abort_on_exception ⟨[⟨[hookOk1]⟩, ⟨[hookOk2]⟩]⟩
      "startup").2.2.2 hookOk1 true⟩

/-- C9: the claim says registering a command handler for `/hello` and
dispatching `{"command": "/hello", "text": "world"}` invokes the handler
with `text="world"` after the `200 {"ok": true}` acknowledgement.  The
acknowledgement part holds, but the handler is never invoked: the background
`_handle` crashes with `AttributeError` in `_pre_handle` reading
`payload.event.bot_id` (the payload has no `event`), and `"text"` is not
among the keyword-argument vocabulary for command dispatches in any case
(the schema drops the unknown `text` field). -/
theorem command_dispatch_crashes_before_handler :
    payload_handler_sync "command"
        { token := "t", type := "command", command := some "/hello" } =
      .ok (⟨"command", some "/hello"⟩, ⟨true, 200⟩) ∧
    handle {} (SlackCallbackRegistry.command {} "/hello" ⟨["text"], fun _ c => .ok c⟩)
        "command" (some "/hello") {}
        { token := "t", type := "command", command := some "/hello" } =
      ⟨[], .error (.attributeError "NoneType object has no attribute bot_id")⟩ ∧
    build_available_params "command"
        { token := "t", type := "command", command := some "/hello" } =
      .ok [("app", .vApp),
           ("payload", .vPayload { token := "t", type := "command",
                                   command := some "/hello" }),
           ("slack", .vSlack), ("request", .vRequest), ("response", .vResponse),
           ("context", .vContext), ("command", .vOptStr (some "/hello"))] := by
  exact ⟨rfl, rfl, rfl⟩
